import Mathlib

/-!
Verification development for the MedNote backend core: language detection,
diagnosis orchestration, chat orchestration, consultation persistence and
the speech-to-text temporary-resource discipline.

Texts are modelled as `List Char`.  External collaborators (the LLM provider,
the JSON parser of the JS runtime, the document store, the filesystem) are
modelled as explicit inputs: a provider call is a value describing what the
call returned or threw, and the JSON parse of the returned text is part of
that value.  JS exceptions are modelled as `JsError` values propagated in
`Except`; the catch blocks of the source become explicit classification
functions applied to the error of the inner computation.
-/

set_option maxRecDepth 8192

/-! ### Language tags -/

inductive Lang where
  | pt
  | en
deriving DecidableEq, Repr

/-! ### JS string primitives -/

/-- The whitespace characters relevant to `String.prototype.trim` for the
inputs of this system (JS trims the full Unicode whitespace class; the
characters listed here are the ones the backend can receive). -/
def isJsWs (c : Char) : Bool :=
  c == ' ' || c == '\t' || c == '\n' || c == '\r' ||
  c == '\x0b' || c == '\x0c' || c == '\u00a0'

/-- `text.trim()`. -/
def jsTrim (t : List Char) : List Char :=
  ((t.dropWhile isJsWs).reverse.dropWhile isJsWs).reverse

/-- `text.toLowerCase()` restricted to ASCII and the Latin-1 letters that can
occur in the Portuguese/English inputs of this system (the simple lowercase
mapping of U+0041–U+005A and U+00C0–U+00DE except U+00D7). -/
def jsToLower (c : Char) : Char :=
  if 'A' ≤ c ∧ c ≤ 'Z' then Char.ofNat (c.toNat + 32)
  else if 0xc0 ≤ c.toNat ∧ c.toNat ≤ 0xde ∧ c.toNat ≠ 0xd7 then Char.ofNat (c.toNat + 32)
  else c

/-- `t.includes(w)` tested at position `i`: does `w` start at index `i`? -/
def subAt (t w : List Char) (i : Nat) : Bool :=
  (t.drop i).take w.length == w

/-- `t.includes(w)`: `w` occurs as a contiguous substring of `t`. -/
def containsSub (t w : List Char) : Bool :=
  (List.range (t.length + 1)).any (subAt t w)

/-- The JS regex word-character class `\w = [A-Za-z0-9_]`. -/
def isWordChar (c : Char) : Bool :=
  (decide ('a' ≤ c) && decide (c ≤ 'z')) ||
  (decide ('A' ≤ c) && decide (c ≤ 'Z')) ||
  (decide ('0' ≤ c) && decide (c ≤ '9')) || c == '_'

/-- Whether the character at index `i` of `t` is a word character
(out-of-range positions count as non-word, as in JS `\b`). -/
def wordCharAt (t : List Char) (i : Nat) : Bool :=
  match t.drop i with
  | [] => false
  | c :: _ => isWordChar c

/-- JS `\b`: a word boundary sits at position `i` (between index `i - 1` and
index `i`) iff exactly one of the two surrounding characters is a word
character, the virtual characters beyond both ends being non-word. -/
def hasBoundary (t : List Char) (i : Nat) : Bool :=
  (if i == 0 then false else wordCharAt t (i - 1)) != wordCharAt t i

/-- One alternative `w` of a regex `\b(w1|w2|...)\b` matches `t` at `i`. -/
def matchesAt (t w : List Char) (i : Nat) : Bool :=
  subAt t w i && hasBoundary t i && hasBoundary t (i + w.length)

/-- `t.match(/\b(w1|w2|...)\b/g)` is non-null: some alternative matches at
some position with word boundaries on both sides. -/
def regexAnyWord (alts : List (List Char)) (t : List Char) : Bool :=
  (List.range (t.length + 1)).any (fun i => alts.any (fun w => matchesAt t w i))

/-! ### LanguageService.detectLanguage -/

/-- The fixed Portuguese keyword list of `LanguageService.detectLanguage`. -/
def ptWords : List (List Char) :=
  ["dor", "febre", "tosse", "dores", "sinto", "estou", "tenho", "doutor", "médico",
   "sintomas", "medicamento", "exame", "hospital", "consulta", "paciente", "tratamento",
   "saúde", "doença", "remédio", "problema", "mal", "bem", "melhor", "pior", "muito",
   "pouco", "quando", "onde", "como", "porque", "será", "pode", "deve", "precisa"].map
    String.toList

/-- The fixed English keyword list of `LanguageService.detectLanguage`. -/
def enWords : List (List Char) :=
  ["pain", "fever", "cough", "feel", "feeling", "have", "doctor", "medical",
   "symptoms", "medication", "test", "hospital", "appointment", "patient", "treatment",
   "health", "disease", "medicine", "problem", "bad", "good", "better", "worse", "much",
   "little", "when", "where", "how", "because", "will", "can", "should", "need"].map
    String.toList

/-- Alternatives of the English function-word regex
`/\b(the|and|is|are|was|were|have|has|will|would|could|should)\b/g`. -/
def enFnWords : List (List Char) :=
  ["the", "and", "is", "are", "was", "were", "have", "has", "will", "would",
   "could", "should"].map String.toList

/-- Alternatives of the Portuguese function-word regex
`/\b(que|para|com|por|mas|são|está|estão|tem|vai|seria|pode|deve)\b/g`. -/
def ptFnWords : List (List Char) :=
  ["que", "para", "com", "por", "mas", "são", "está", "estão", "tem", "vai",
   "seria", "pode", "deve"].map String.toList

/-- The `forEach` keyword scoring loop: `+1` per list member found by
`lowerText.includes(word)`. -/
def scoreFold (ws : List (List Char)) (lower : List Char) : Nat :=
  ws.foldl (fun s w => if containsSub lower w then s + 1 else s) 0

/-- `LanguageService.detectLanguage`. -/
def detectLanguage (text : List Char) : Lang :=
  if (jsTrim text).isEmpty then Lang.pt
  else
    let lower := text.map jsToLower
    let ptScore1 := scoreFold ptWords lower
    let enScore1 := scoreFold enWords lower
    let enScore2 := if regexAnyWord enFnWords lower then enScore1 + 2 else enScore1
    let ptScore2 := if regexAnyWord ptFnWords lower then ptScore1 + 2 else ptScore1
    if ptScore2 < enScore2 then Lang.en else Lang.pt

/-! Claim-side formulation of the same scoring (spec §4.1): `+1` per distinct
keyword occurring as a substring of the lowercased input plus a flat `+2`
regex bonus per side, decided by strict comparison. -/

/-- Number of distinct members of `ws` occurring as substrings of `lower`. -/
def keywordScore (ws : List (List Char)) (lower : List Char) : Nat :=
  (ws.filter (fun w => containsSub lower w)).length

/-- The Portuguese score as the spec describes it. -/
def ptScoreSpec (text : List Char) : Nat :=
  keywordScore ptWords (text.map jsToLower) +
    (if regexAnyWord ptFnWords (text.map jsToLower) then 2 else 0)

/-- The English score as the spec describes it. -/
def enScoreSpec (text : List Char) : Nat :=
  keywordScore enWords (text.map jsToLower) +
    (if regexAnyWord enFnWords (text.map jsToLower) then 2 else 0)

/-- The detector as the spec describes it: `en` iff the English score strictly
exceeds the Portuguese score, `pt` otherwise. -/
def claimDetect (text : List Char) : Lang :=
  if ptScoreSpec text < enScoreSpec text then Lang.en else Lang.pt

/-! ### JSON values and JS object semantics

`JSON.parse` output and the objects built from it.  JSON numbers are modelled
as rationals (every JSON numeral of this system is exactly representable). -/

inductive Json where
  | nullJ
  | boolJ (b : Bool)
  | num (q : ℚ)
  | str (s : List Char)
  | arr (xs : List Json)
  | obj (fields : List (String × Json))

/-- `.str` of a Lean string literal. -/
def jstr (s : String) : Json :=
  .str s.toList

/-- Association-list lookup, first binding wins (JS property access reads the
single binding of a key: parsed objects keep one binding per key). -/
def getKV {α : Type} : List (String × α) → String → Option α
  | [], _ => none
  | (k', v) :: fs, k => if k' = k then some v else getKV fs k

/-- Association-list update: JS property assignment / object-literal override
replaces the value in place if the key exists, else appends the key last. -/
def setKV {α : Type} : List (String × α) → String → α → List (String × α)
  | [], k, v => [(k, v)]
  | (k', v') :: fs, k, v => if k' = k then (k', v) :: fs else (k', v') :: setKV fs k v

/-- JS property read `j.k`: `undefined` (here `none`) unless `j` is an object
with the key. -/
def jget : Json → String → Option Json
  | .obj fs, k => getKV fs k
  | _, _ => none

/-- JS property write `j.k = v` (and the `{...j, k: v}` override): on
non-objects the write is silently without effect, as in non-strict JS. -/
def objSet : Json → String → Json → Json
  | .obj fs, k, v => .obj (setKV fs k v)
  | j, _, _ => j

/-- JS truthiness of a possibly-absent value: `undefined`, `null`, `false`,
`0` and `""` are falsy; arrays and objects are always truthy. -/
def truthy : Option Json → Bool
  | none => false
  | some .nullJ => false
  | some (.boolJ b) => b
  | some (.num q) => !(decide (q = 0))
  | some (.str s) => !s.isEmpty
  | some (.arr _) => true
  | some (.obj _) => true

/-! ### JS errors and the provider boundary -/

/-- A thrown JS `Error`: whether it is a `SyntaxError` (what `JSON.parse`
throws) and its `message`. -/
structure JsError where
  isParseError : Bool
  msg : List Char

/-- Substrings tested by the catch-block classifiers. -/
def sRate : List Char := "rate_limit".toList

/-- The HTTP 429 marker tested by the classifiers. -/
def s429 : List Char := "429".toList

/-- The quota marker tested by the classifiers. -/
def sQuota : List Char := "quota".toList

/-- The billing marker tested by the classifiers. -/
def sBilling : List Char := "billing".toList

/-- The file marker tested by the transcription classifier. -/
def sFile : List Char := "file".toList

/-- Error message thrown for rate limiting by the diagnosis and chat paths. -/
def msgRateLimited : List Char :=
  "Limite de requisições atingido. Tente novamente em alguns minutos.".toList

/-- Error message thrown for quota/billing failures by the diagnosis path. -/
def msgQuotaDiag : List Char :=
  "Cota da OpenAI excedida. Verifique seu plano e billing na OpenAI.".toList

/-- Error message thrown for quota/billing failures by the chat and
transcription paths. -/
def msgQuotaChat : List Char :=
  "Cota da OpenAI excedida. Verifique seu plano e billing.".toList

/-- Error message thrown for a JSON parse failure of the diagnosis response
(the `MalformedResponse` kind of the spec). -/
def msgMalformed : List Char :=
  "Falha ao processar resposta da IA".toList

/-- The generic diagnosis failure message (the `GenericUpstreamFailure` kind
of the spec on the diagnosis path). -/
def msgDiagFailure : List Char :=
  "Falha ao gerar diagnóstico".toList

/-- Message of the error thrown inside the try block when the provider
returns no content. -/
def msgEmptyResp : List Char :=
  "Resposta vazia da OpenAI".toList

/-- Message of the error thrown inside the try block when a required field is
missing from the parsed diagnosis response. -/
def msgInvalidFormat : List Char :=
  "Formato de resposta inválido da OpenAI".toList

/-- The generic chat failure message. -/
def msgChatFailure : List Char :=
  "Falha ao processar mensagem do chat".toList

/-- Error message thrown for rate limiting by the transcription path. -/
def msgTranscribeRate : List Char :=
  "Limite de transcrições atingido. Tente novamente em alguns minutos.".toList

/-- Error message for an unsupported audio format. -/
def msgUnsupportedAudio : List Char :=
  "Formato de áudio não suportado. Use WAV, MP3, M4A ou WebM.".toList

/-- The generic transcription failure message. -/
def msgTranscribeFailure : List Char :=
  "Falha ao transcrever áudio".toList

/-! ### OpenAIService.generateDiagnosis -/

/-- What the provider's chat completion returned for the diagnosis call, seen
through `JSON.parse`: no content at all (falsy `message.content`), content
that `JSON.parse` rejects (with the `SyntaxError` message), or content that
parses to a JSON value. -/
inductive ProviderContent where
  | empty
  | unparsable (errMsg : List Char)
  | parsed (j : Json)

/-- `'pt'` / `'en'`. -/
def langCode : Lang → List Char
  | .pt => "pt".toList
  | .en => "en".toList

/-- The fixed language-specific `reasoning` boilerplate of the synthesized
explanation. -/
def reasoningText : Lang → List Char
  | .en => "Analysis based on reported symptoms and clinical patterns.".toList
  | .pt => "Análise baseada nos sintomas relatados e padrões clínicos.".toList

/-- The fixed language-specific `recommendationBasis` boilerplate of the
synthesized explanation. -/
def recommendationText : Lang → List Char
  | .en => "Standard clinical guidelines and symptom correlation.".toList
  | .pt => "Diretrizes clínicas padrão e correlação de sintomas.".toList

/-- `v.slice(0, 2)` and `v.slice(1)` of `response.diseases`: defined on
arrays and strings, a `TypeError` on any other value. -/
def jsSlice2 : Json → Except JsError (Json × Json)
  | .arr xs => .ok (.arr (xs.take 2), .arr (xs.drop 1))
  | .str s => .ok (.str (s.take 2), .str (s.drop 1))
  | _ => .error ⟨false, "response.diseases.slice is not a function".toList⟩

/-- The explanation object synthesized when the response lacks one, with
`ks`/`dd` the two slices of `response.diseases`. -/
def defaultExplanation (lang : Lang) (ks dd : Json) : Json :=
  .obj [("reasoning", .str (reasoningText lang)),
        ("confidence", .num 0.8),
        ("keySymptoms", ks),
        ("differentialDiagnoses", dd),
        ("recommendationBasis", .str (recommendationText lang))]

/-- The catch block of `generateDiagnosis`: reclassification of whatever the
try block threw (rate limit, quota, `SyntaxError`, everything else). -/
def classifyDiagError (e : JsError) : List Char :=
  if containsSub e.msg sRate || containsSub e.msg s429 then msgRateLimited
  else if containsSub e.msg sQuota || containsSub e.msg sBilling then msgQuotaDiag
  else if e.isParseError then msgMalformed
  else msgDiagFailure

/-- The try block of `generateDiagnosis` after the provider call: empty
content check, parse, required-field validation, explanation synthesis and
the final `{...response, language}` spread. -/
def genDiagBody (lang : Lang) (call : Except JsError ProviderContent) :
    Except JsError Json :=
  match call with
  | .error e => .error e
  | .ok .empty => .error ⟨false, msgEmptyResp⟩
  | .ok (.unparsable m) => .error ⟨true, m⟩
  | .ok (.parsed j) =>
    if !truthy (jget j "diagnosis") || !truthy (jget j "diseases") ||
        !truthy (jget j "exams") || !truthy (jget j "medications") then
      .error ⟨false, msgInvalidFormat⟩
    else if truthy (jget j "explanation") then
      .ok (objSet j "language" (.str (langCode lang)))
    else
      match jsSlice2 ((jget j "diseases").getD .nullJ) with
      | .error e => .error e
      | .ok (ks, dd) =>
        .ok (objSet (objSet j "explanation" (defaultExplanation lang ks dd))
              "language" (.str (langCode lang)))

/-- `OpenAIService.generateDiagnosis`, as a function of the transcript and of
the provider call outcome: language detection, then the try block, with every
escaping error reclassified by the catch block. -/
def generateDiagnosisM (transcript : List Char)
    (call : Except JsError ProviderContent) : Except (List Char) Json :=
  match genDiagBody (detectLanguage transcript) call with
  | .ok j => .ok j
  | .error e => .error (classifyDiagError e)

/-! ### FirebaseService.saveConsultation and MedicalController.diagnose -/

/-- A Firestore document field value: a JSON value, the server-assigned
timestamp sentinel (`FieldValue.serverTimestamp()`), a `Date`, or `null`. -/
inductive DocV where
  | jsv (j : Json)
  | server
  | dateV (n : Int)
  | nullV

/-- A document written to the `MedNote` collection: the document key and the
field map (insertion order preserved). -/
structure FsDoc where
  key : List Char
  fields : List (String × DocV)

/-- `v || []` of `saveConsultation` on an optional field value. -/
def orEmptyArr (v : Option Json) : Json :=
  match v with
  | some x => if truthy (some x) then x else .arr []
  | none => .arr []

/-- The document `saveConsultation` writes for the `ConsultationData` that
`MedicalController.diagnose` assembles from a successful diagnosis result
`r`: the controller passes `id`, the transcript, `result.diagnosis`,
`result.diseases`, `result.exams`, `result.medications`, `timestamp: new
Date()` (becoming `createdAt`) and the hardcoded `confidence: 0.95`;
`saveConsultation` adds the server timestamp, `duration: null` and
`status: 'completed'`. -/
def buildConsultationDoc (id transcript : List Char) (r : Json) (now : Int) :
    FsDoc where
  key := id
  fields :=
    [("id", .jsv (.str id)),
     ("transcription", .jsv (.str transcript)),
     ("diagnosis", .jsv ((jget r "diagnosis").getD .nullJ)),
     ("diseases", .jsv (orEmptyArr (jget r "diseases"))),
     ("exams", .jsv (orEmptyArr (jget r "exams"))),
     ("medications", .jsv (orEmptyArr (jget r "medications"))),
     ("timestamp", .server),
     ("createdAt", .dateV now),
     ("duration", .nullV),
     ("confidence", .jsv (.num 0.95)),
     ("status", .jsv (jstr "completed"))]

/-- The HTTP outcome of the diagnose endpoint together with the documents
written to the store during the request. -/
structure DiagnoseOutcome where
  status : Nat
  body : Json
  saved : List FsDoc

/-- 400 body for a missing/empty transcript. -/
def diagnoseRequiredBody : Json :=
  .obj [("success", .boolJ false),
        ("message", jstr "Transcript é obrigatório"),
        ("diagnosis", jstr ""),
        ("diseases", .arr []),
        ("exams", .arr []),
        ("medications", .arr [])]

/-- 400 body for a transcript shorter than 10 trimmed characters. -/
def diagnoseShortBody : Json :=
  .obj [("success", .boolJ false),
        ("message", jstr "Transcript muito curto para análise"),
        ("diagnosis", jstr ""),
        ("diseases", .arr []),
        ("exams", .arr []),
        ("medications", .arr [])]

/-- 500 body of the endpoint's outer catch. -/
def diagnoseErrorBody : Json :=
  .obj [("success", .boolJ false),
        ("message", jstr "Erro ao gerar diagnóstico"),
        ("diagnosis", jstr ""),
        ("diseases", .arr []),
        ("exams", .arr []),
        ("medications", .arr [])]

/-- 200 body: `{...result, success: true, message: ...}`. -/
def diagnoseOkBody (r : Json) : Json :=
  objSet (objSet r "success" (.boolJ true)) "message"
    (jstr "Diagnóstico gerado com sucesso")

/-- `MedicalController.diagnose`: request validation, diagnosis generation,
best-effort save (a failing save — `saveFails = true` — is logged and
otherwise ignored), response assembly. -/
def diagnose (transcript? : Option (List Char))
    (call : Except JsError ProviderContent) (freshId : List Char) (now : Int)
    (saveFails : Bool) : DiagnoseOutcome :=
  match transcript? with
  | none => ⟨400, diagnoseRequiredBody, []⟩
  | some t =>
    if (jsTrim t).length = 0 then ⟨400, diagnoseRequiredBody, []⟩
    else if (jsTrim t).length < 10 then ⟨400, diagnoseShortBody, []⟩
    else
      match generateDiagnosisM t call with
      | .error _ => ⟨500, diagnoseErrorBody, []⟩
      | .ok r =>
        let doc := buildConsultationDoc freshId t r now
        ⟨200, diagnoseOkBody r, if saveFails then [] else [doc]⟩

/-! ### OpenAIService.chatWithContext -/

/-- The catch block of `chatWithContext` (no `SyntaxError` case here). -/
def classifyChatError (e : JsError) : List Char :=
  if containsSub e.msg sRate || containsSub e.msg s429 then msgRateLimited
  else if containsSub e.msg sQuota || containsSub e.msg sBilling then msgQuotaChat
  else msgChatFailure

/-- `OpenAIService.chatWithContext` as a function of the user message, the
optional `context.language` override and the provider call outcome (the
provider's `message.content`, `none` for null/absent).  Prompt construction
is pure string assembly with no observable effect on the returned value and
is elided; the operative language (`context.language`, else detection on the
message) is still computed as in the source. -/
def chatWithContext (message : List Char) (ctxLang : Option Lang)
    (call : Except JsError (Option (List Char))) : Except (List Char) (List Char) :=
  let _operativeLang := ctxLang.getD (detectLanguage message)
  let inner : Except JsError (List Char) :=
    match call with
    | .error e => .error e
    | .ok none => .error ⟨false, msgEmptyResp⟩
    | .ok (some s) =>
      if (jsTrim s).isEmpty then .error ⟨false, msgEmptyResp⟩ else .ok (jsTrim s)
  match inner with
  | .ok r => .ok r
  | .error e => .error (classifyChatError e)

/-! ### FirebaseService.getStats and its endpoint -/

/-- The stats triple. -/
structure StatsT where
  total : Nat
  today : Nat
  thisWeek : Nat
deriving DecidableEq, Repr

/-- `FirebaseService.getStats` as a function of the document-store outcome
(the three range queries, lumped): the catch block swallows any store error
and returns the zero default. -/
def getStats (db : Except (List Char) StatsT) : Except (List Char) StatsT :=
  match db with
  | .ok s => .ok s
  | .error _ => .ok ⟨0, 0, 0⟩

/-- Success body of the stats endpoint. -/
def statsBody (s : StatsT) : Json :=
  .obj [("success", .boolJ true),
        ("stats", .obj [("total", .num s.total),
                        ("today", .num s.today),
                        ("thisWeek", .num s.thisWeek)])]

/-- `MedicalController.getConsultationStats`: status and body as a function
of the store outcome. -/
def getConsultationStatsEndpoint (db : Except (List Char) StatsT) : Nat × Json :=
  match getStats db with
  | .ok s => (200, statsBody s)
  | .error _ =>
    (500, .obj [("success", .boolJ false),
                ("message", jstr "Erro ao buscar estatísticas"),
                ("stats", statsBody ⟨0, 0, 0⟩)])

/-! ### OpenAIService.transcribeAudio -/

/-- The temporary file name (`temp_${Date.now()}_${filename}`; the timestamp
component is irrelevant to the resource discipline and elided). -/
def tempName (filename : List Char) : List Char :=
  "temp_".toList ++ filename

/-- The catch block of `transcribeAudio`. -/
def classifyTranscribeError (e : JsError) : List Char :=
  if containsSub e.msg sRate || containsSub e.msg s429 then msgTranscribeRate
  else if containsSub e.msg sQuota || containsSub e.msg sBilling then msgQuotaChat
  else if containsSub e.msg sFile then msgUnsupportedAudio
  else msgTranscribeFailure

/-- `OpenAIService.transcribeAudio` with explicit temp-file accounting:
`tempFiles` is the set of live temporary files before the call;
`fs.writeFileSync` adds the temp file, the provider call runs inside `try`,
and the `finally` block unlinks the temp file on both exits; the escaping
error is reclassified by the outer catch.  Returns the call result and the
live temporary files after the call. -/
def transcribeAudio (tempFiles : List (List Char)) (filename : List Char)
    (call : Except JsError (Option (List Char))) :
    Except (List Char) (List Char) × List (List Char) :=
  let temp := tempName filename
  let afterWrite := temp :: tempFiles
  let inner : Except JsError (List Char) :=
    match call with
    | .error e => .error e
    | .ok t => .ok (t.getD [])
  let afterCleanup := afterWrite.erase temp
  match inner with
  | .ok r => (.ok r, afterCleanup)
  | .error e => (.error (classifyTranscribeError e), afterCleanup)

/-- Iterated `transcribeAudio` calls threading the live temp-file set,
starting from no live files. -/
def transcribeMany (filename : List Char)
    (calls : List (Except JsError (Option (List Char)))) : List (List Char) :=
  calls.foldl (fun st c => (transcribeAudio st filename c).2) []

/-! ### Concrete runs used by the individual claims -/

/-- A parsed diagnosis response missing the required `medications` field. -/
def c2obj : Json :=
  .obj [("diagnosis", jstr "Quadro viral"),
        ("diseases", .arr [jstr "Gripe"]),
        ("exams", .arr [jstr "Hemograma"])]

/-- An English transcript for the C3 instantiation. -/
def c3transcript : List Char :=
  "I have chest pain and a bad cough".toList

/-- A well-formed diagnosis response without `explanation`, three diseases. -/
def c3obj : Json :=
  .obj [("diagnosis", jstr "Likely viral infection"),
        ("diseases", .arr [jstr "Flu", jstr "Common cold", jstr "Bronchitis"]),
        ("exams", .arr [jstr "Blood test"]),
        ("medications", .arr [jstr "Ibuprofen"])]

/-- The diseases of `c3obj`. -/
def c3ds : List Json :=
  [jstr "Flu", jstr "Common cold", jstr "Bronchitis"]

/-- The transcript of the spec's scenario example. -/
def c4transcript : List Char :=
  "paciente relata dor de cabeça e febre há dois dias".toList

/-- The stubbed provider response of the spec's scenario example. -/
def c4obj : Json :=
  .obj [("diagnosis", jstr "Quadro gripal provável"),
        ("diseases", .arr [jstr "Gripe", jstr "Sinusite"]),
        ("exams", .arr [jstr "Hemograma"]),
        ("medications", .arr [jstr "Paracetamol"])]

/-- The explanation the code synthesizes for `c4obj` on a Portuguese
transcript: `keySymptoms = diseases.slice(0, 2)`,
`differentialDiagnoses = diseases.slice(1)`. -/
def c4expl : Json :=
  .obj [("reasoning", .str (reasoningText .pt)),
        ("confidence", .num 0.8),
        ("keySymptoms", .arr [jstr "Gripe", jstr "Sinusite"]),
        ("differentialDiagnoses", .arr [jstr "Sinusite"]),
        ("recommendationBasis", .str (recommendationText .pt))]

/-- The full result of the scenario run. -/
def c4result : Json :=
  .obj [("diagnosis", jstr "Quadro gripal provável"),
        ("diseases", .arr [jstr "Gripe", jstr "Sinusite"]),
        ("exams", .arr [jstr "Hemograma"]),
        ("medications", .arr [jstr "Paracetamol"]),
        ("explanation", c4expl),
        ("language", jstr "pt")]

/-- A Portuguese transcript of 10+ trimmed characters for the C5/C6 runs. -/
def c5transcript : List Char :=
  "paciente com dor de garganta e febre alta".toList

/-- An explanation already present in the provider response of the C5 run. -/
def c5expl : Json :=
  .obj [("reasoning", jstr "Sintomas compatíveis com infecção viral"),
        ("confidence", .num 0.85),
        ("keySymptoms", .arr [jstr "febre"]),
        ("differentialDiagnoses", .arr []),
        ("recommendationBasis", jstr "Diretrizes padrão")]

/-- A complete provider response (explanation included) for the C5 run. -/
def c5obj : Json :=
  .obj [("diagnosis", jstr "Faringite aguda"),
        ("diseases", .arr [jstr "Faringite", jstr "Amigdalite"]),
        ("exams", .arr [jstr "Exame de garganta"]),
        ("medications", .arr [jstr "Ibuprofeno"]),
        ("explanation", c5expl)]

/-- The diagnosis result of the C5 run (`{...response, language}`). -/
def c5result : Json :=
  .obj [("diagnosis", jstr "Faringite aguda"),
        ("diseases", .arr [jstr "Faringite", jstr "Amigdalite"]),
        ("exams", .arr [jstr "Exame de garganta"]),
        ("medications", .arr [jstr "Ibuprofeno"]),
        ("explanation", c5expl),
        ("language", jstr "pt")]

/-- A Portuguese transcript for the C6 run. -/
def c6transcript : List Char :=
  "paciente relata tosse seca e cansaço há uma semana".toList

/-- A provider response without `explanation` for the C6 run. -/
def c6obj : Json :=
  .obj [("diagnosis", jstr "Quadro respiratório a esclarecer"),
        ("diseases", .arr [jstr "Bronquite", jstr "Asma"]),
        ("exams", .arr [jstr "Radiografia de tórax"]),
        ("medications", .arr [jstr "Xarope antitussígeno"])]

/-- The synthesized explanation of the C6 run (confidence 0.80). -/
def c6expl : Json :=
  .obj [("reasoning", .str (reasoningText .pt)),
        ("confidence", .num 0.8),
        ("keySymptoms", .arr [jstr "Bronquite", jstr "Asma"]),
        ("differentialDiagnoses", .arr [jstr "Asma"]),
        ("recommendationBasis", .str (recommendationText .pt))]

/-- The diagnosis result of the C6 run. -/
def c6result : Json :=
  .obj [("diagnosis", jstr "Quadro respiratório a esclarecer"),
        ("diseases", .arr [jstr "Bronquite", jstr "Asma"]),
        ("exams", .arr [jstr "Radiografia de tórax"]),
        ("medications", .arr [jstr "Xarope antitussígeno"]),
        ("explanation", c6expl),
        ("language", jstr "pt")]

/-- The fresh id of the C6 run. -/
def c6id : List Char :=
  "3f2c1a9e-0000-4000-8000-000000000000".toList

/-- The consultation document the C6 run writes. -/
def c6doc : FsDoc :=
  buildConsultationDoc c6id c6transcript c6result 0

/-- A nonempty transcript of fewer than 10 trimmed characters. -/
def c7transcript : List Char :=
  "dor".toList

/-- A well-formed provider response for the C7 run. -/
def c7obj : Json :=
  .obj [("diagnosis", jstr "Avaliação de dor inespecífica"),
        ("diseases", .arr [jstr "Tensão muscular"]),
        ("exams", .arr [jstr "Exame físico"]),
        ("medications", .arr [jstr "Analgésico"])]

/-- The provider call of the C7 run. -/
def c7call : Except JsError ProviderContent :=
  .ok (.parsed c7obj)

/-- The (successful) result of the C7 run: `generateDiagnosis` performs no
transcript validation and completes on the 3-character transcript. -/
def c7result : Json :=
  .obj [("diagnosis", jstr "Avaliação de dor inespecífica"),
        ("diseases", .arr [jstr "Tensão muscular"]),
        ("exams", .arr [jstr "Exame físico"]),
        ("medications", .arr [jstr "Analgésico"]),
        ("explanation",
          .obj [("reasoning", .str (reasoningText .pt)),
                ("confidence", .num 0.8),
                ("keySymptoms", .arr [jstr "Tensão muscular"]),
                ("differentialDiagnoses", .arr []),
                ("recommendationBasis", .str (recommendationText .pt))]),
        ("language", jstr "pt")]

/-- A chat message for the C8 runs. -/
def c8message : List Char :=
  "O que significa este resultado?".toList

/-! ## Helper lemmas -/

theorem foldl_score (p : List Char → Bool) (ws : List (List Char)) (n : Nat) :
    ws.foldl (fun s w => if p w then s + 1 else s) n = n + (ws.filter p).length := by
  induction ws generalizing n with
  | nil => simp
  | cons w ws ih =>
    by_cases h : p w = true
    · simp only [List.foldl_cons, List.filter_cons, h, if_true, ih, List.length_cons]
      omega
    · simp only [List.foldl_cons, List.filter_cons, h, if_false, ih, Bool.false_eq_true]

theorem scoreFold_eq (ws : List (List Char)) (lower : List Char) :
    scoreFold ws lower = keywordScore ws lower := by
  unfold scoreFold keywordScore
  rw [foldl_score, Nat.zero_add]

theorem subAt_mem {t w : List Char} {i : Nat} (h : subAt t w i = true) :
    ∀ c ∈ w, c ∈ t := by
  intro c hc
  have hw : (t.drop i).take w.length = w := by
    have h' : ((t.drop i).take w.length == w) = true := h
    exact eq_of_beq h'
  rw [← hw] at hc
  exact List.Sublist.mem (List.Sublist.mem hc (List.take_sublist _ _)) (List.drop_sublist _ _)

theorem containsSub_mem {t w : List Char} (h : containsSub t w = true) :
    ∀ c ∈ w, c ∈ t := by
  rcases List.any_eq_true.mp h with ⟨i, _, hi⟩
  exact subAt_mem hi

theorem regexAnyWord_mem {alts : List (List Char)} {t : List Char}
    (h : regexAnyWord alts t = true) : ∃ w ∈ alts, ∀ c ∈ w, c ∈ t := by
  rcases List.any_eq_true.mp h with ⟨i, _, hi⟩
  rcases List.any_eq_true.mp hi with ⟨w, hw, hm⟩
  refine ⟨w, hw, ?_⟩
  have hs : subAt t w i = true := by
    simp only [matchesAt, Bool.and_eq_true] at hm
    exact hm.1.1
  exact subAt_mem hs

theorem jsToLower_ws {c : Char} (h : isJsWs c = true) : jsToLower c = c := by
  simp only [isJsWs, Bool.or_eq_true, beq_iff_eq] at h
  rcases h with ((((((h | h) | h) | h) | h) | h) | h) <;> subst h <;> rfl

theorem jsTrim_empty_all_ws {t : List Char} (h : (jsTrim t).isEmpty = true) :
    ∀ c ∈ t, isJsWs c = true := by
  intro c hc
  have h0 : jsTrim t = [] := List.isEmpty_iff.mp h
  unfold jsTrim at h0
  have h1 : (t.dropWhile isJsWs).reverse.dropWhile isJsWs = [] := by
    have := congrArg List.reverse h0
    simpa using this
  have h3 : ∀ x ∈ t.dropWhile isJsWs, isJsWs x = true := by
    intro x hx
    exact List.dropWhile_eq_nil_iff.mp h1 x (List.mem_reverse.mpr hx)
  have hsplit := List.takeWhile_append_dropWhile isJsWs t
  rw [← hsplit] at hc
  rcases List.mem_append.mp hc with h4 | h4
  · exact List.mem_takeWhile_imp h4
  · exact h3 c h4

theorem enWords_chars : ∀ w ∈ enWords, w ≠ [] ∧ ∀ c ∈ w, isJsWs c = false := by
  decide

theorem enFnWords_chars : ∀ w ∈ enFnWords, w ≠ [] ∧ ∀ c ∈ w, isJsWs c = false := by
  decide

theorem enScoreSpec_ws {t : List Char} (h : ∀ c ∈ t, isJsWs c = true) :
    enScoreSpec t = 0 := by
  have hlow : ∀ c ∈ t.map jsToLower, isJsWs c = true := by
    intro c hc
    rcases List.mem_map.mp hc with ⟨a, ha, rfl⟩
    rw [jsToLower_ws (h a ha)]
    exact h a ha
  have hks : keywordScore enWords (t.map jsToLower) = 0 := by
    unfold keywordScore
    rw [List.length_eq_zero, List.filter_eq_nil_iff]
    intro w hw hcon
    rcases enWords_chars w hw with ⟨hne, hch⟩
    rcases List.exists_mem_of_ne_nil w hne with ⟨c, hc⟩
    have h1 := hlow c (containsSub_mem hcon c hc)
    rw [hch c hc] at h1
    exact Bool.noConfusion h1
  have hrx : regexAnyWord enFnWords (t.map jsToLower) = false := by
    cases hreg : regexAnyWord enFnWords (t.map jsToLower) with
    | false => rfl
    | true =>
      exfalso
      rcases regexAnyWord_mem hreg with ⟨w, hw, hmem⟩
      rcases enFnWords_chars w hw with ⟨hne, hch⟩
      rcases List.exists_mem_of_ne_nil w hne with ⟨c, hc⟩
      have h1 := hlow c (hmem c hc)
      rw [hch c hc] at h1
      exact Bool.noConfusion h1
  unfold enScoreSpec
  rw [hks, hrx]
  simp

theorem getKV_setKV_self {α : Type} (fs : List (String × α)) (k : String) (v : α) :
    getKV (setKV fs k v) k = some v := by
  induction fs with
  | nil => simp [setKV, getKV]
  | cons kv fs ih =>
    obtain ⟨k', v'⟩ := kv
    by_cases h : k' = k
    · subst h
      simp [setKV, getKV]
    · simp [setKV, getKV, h, ih]

theorem getKV_setKV_ne {α : Type} (fs : List (String × α)) {k k' : String}
    (h : k' ≠ k) (v : α) : getKV (setKV fs k' v) k = getKV fs k := by
  induction fs with
  | nil => simp [setKV, getKV, h]
  | cons kv fs ih =>
    obtain ⟨k₀, v₀⟩ := kv
    by_cases h0 : k₀ = k'
    · subst h0
      simp [setKV, getKV, h]
    · by_cases h1 : k₀ = k
      · subst h1
        simp [setKV, getKV, h0]
      · simp [setKV, getKV, h0, h1, ih]

/-! ## Claims -/

/-- C1: for every input text, `detectLanguage` scores `+1` per distinct
keyword-list member occurring as a substring of the lowercased input plus a
flat `+2` per matching function-word regex, returns `en` iff the English
score strictly exceeds the Portuguese score and `pt` otherwise (so the empty
input and every tie yield `pt`). -/
theorem c1_detect_matches_claim :
    (∀ t : List Char, detectLanguage t = claimDetect t) ∧
      detectLanguage [] = Lang.pt := by
  constructor
  · intro t
    by_cases h : (jsTrim t).isEmpty = true
    · have h0 : enScoreSpec t = 0 := enScoreSpec_ws (jsTrim_empty_all_ws h)
      unfold detectLanguage claimDetect
      rw [if_pos h, h0]
      simp
    · have he : (if regexAnyWord enFnWords (t.map jsToLower) then
          scoreFold enWords (t.map jsToLower) + 2
          else scoreFold enWords (t.map jsToLower)) = enScoreSpec t := by
        unfold enScoreSpec
        rw [scoreFold_eq]
        cases hreg : regexAnyWord enFnWords (t.map jsToLower) <;> simp [hreg]
      have hp : (if regexAnyWord ptFnWords (t.map jsToLower) then
          scoreFold ptWords (t.map jsToLower) + 2
          else scoreFold ptWords (t.map jsToLower)) = ptScoreSpec t := by
        unfold ptScoreSpec
        rw [scoreFold_eq]
        cases hreg : regexAnyWord ptFnWords (t.map jsToLower) <;> simp [hreg]
      unfold detectLanguage claimDetect
      rw [if_neg h]
      simp only []
      rw [he, hp]
  · decide

/-- C2 (counterexample): a parsed response missing the required
`medications` field makes `generateDiagnosis` fail with the generic
`GenericUpstreamFailure` message, not with the `MalformedResponse` one. -/
theorem c2_counterexample :
    generateDiagnosisM ("paciente com febre há três dias".toList)
        (.ok (.parsed c2obj)) = .error msgDiagFailure ∧
      msgDiagFailure ≠ msgMalformed :=
  ⟨rfl, by decide⟩

/-- C2 (amended): a JSON parse failure whose `SyntaxError` message carries
none of the rate/quota markers yields `MalformedResponse`, but a parsed
response missing one of the required fields yields the generic
`GenericUpstreamFailure` kind: the missing-field error thrown inside the try
block is reclassified by the function's own catch-all. -/
theorem c2_amended :
    (∀ t m : List Char,
        containsSub m sRate = false → containsSub m s429 = false →
        containsSub m sQuota = false → containsSub m sBilling = false →
        generateDiagnosisM t (.ok (.unparsable m)) = .error msgMalformed) ∧
    (∀ (t : List Char) (j : Json),
        (!truthy (jget j "diagnosis") || !truthy (jget j "diseases") ||
          !truthy (jget j "exams") || !truthy (jget j "medications")) = true →
        generateDiagnosisM t (.ok (.parsed j)) = .error msgDiagFailure) := by
  constructor
  · intro t m h1 h2 h3 h4
    unfold generateDiagnosisM genDiagBody classifyDiagError
    simp [h1, h2, h3, h4]
  · intro t j h
    have hb : genDiagBody (detectLanguage t) (.ok (.parsed j)) =
        .error ⟨false, msgInvalidFormat⟩ := by
      simp only [genDiagBody]
      rw [h]
      simp
    simp only [generateDiagnosisM]
    rw [hb]
    rfl

/-- C2 (witness): the amended claim at a concrete unparsable response and at
`c2obj`. -/
theorem c2_witness :
    generateDiagnosisM ("short note".toList)
        (.ok (.unparsable ("Unexpected token".toList))) = .error msgMalformed ∧
    generateDiagnosisM ("short note".toList) (.ok (.parsed c2obj)) =
      .error msgDiagFailure :=
  ⟨c2_amended.1 _ _ (by decide) (by decide) (by decide) (by decide),
   c2_amended.2 _ _ (by decide)⟩

/-- C3: a provider response with the four required fields, an array of
diseases and no `explanation` field yields a result whose synthesized
explanation has confidence 0.80, `keySymptoms = diseases.slice(0, 2)`,
`differentialDiagnoses = diseases.slice(1)` and the fixed language-specific
boilerplate for `reasoning` and `recommendationBasis`. -/
theorem c3_synthesized_explanation (t : List Char) (j : Json) (ds : List Json)
    (hdg : truthy (jget j "diagnosis") = true)
    (hds : jget j "diseases" = some (.arr ds))
    (hex : truthy (jget j "exams") = true)
    (hmd : truthy (jget j "medications") = true)
    (hexp : jget j "explanation" = none) :
    ∃ r, generateDiagnosisM t (.ok (.parsed j)) = .ok r ∧
      jget r "explanation" =
        some (defaultExplanation (detectLanguage t) (.arr (ds.take 2))
          (.arr (ds.drop 1))) ∧
      jget (defaultExplanation (detectLanguage t) (.arr (ds.take 2))
          (.arr (ds.drop 1))) "confidence" = some (.num 0.8) ∧
      jget (defaultExplanation (detectLanguage t) (.arr (ds.take 2))
          (.arr (ds.drop 1))) "keySymptoms" = some (.arr (ds.take 2)) ∧
      jget (defaultExplanation (detectLanguage t) (.arr (ds.take 2))
          (.arr (ds.drop 1))) "differentialDiagnoses" = some (.arr (ds.drop 1)) ∧
      jget (defaultExplanation (detectLanguage t) (.arr (ds.take 2))
          (.arr (ds.drop 1))) "reasoning" =
        some (.str (reasoningText (detectLanguage t))) ∧
      jget (defaultExplanation (detectLanguage t) (.arr (ds.take 2))
          (.arr (ds.drop 1))) "recommendationBasis" =
        some (.str (recommendationText (detectLanguage t))) := by
  rcases j with _ | b | q | s | xs | fs
  case nullJ => simp [jget, truthy] at hdg
  case boolJ => simp [jget, truthy] at hdg
  case num => simp [jget, truthy] at hdg
  case str => simp [jget, truthy] at hdg
  case arr => simp [jget, truthy] at hdg
  case obj =>
  have hcond : (!truthy (jget (Json.obj fs) "diagnosis") ||
      !truthy (jget (Json.obj fs) "diseases") ||
      !truthy (jget (Json.obj fs) "exams") ||
      !truthy (jget (Json.obj fs) "medications")) = false := by
    rw [hdg, hds, hex, hmd]
    rfl
  have hexp' : truthy (jget (Json.obj fs) "explanation") = false := by
    rw [hexp]
    rfl
  have hb : genDiagBody (detectLanguage t) (.ok (.parsed (Json.obj fs))) =
      .ok (objSet (objSet (Json.obj fs) "explanation"
            (defaultExplanation (detectLanguage t) (.arr (ds.take 2))
              (.arr (ds.drop 1))))
          "language" (.str (langCode (detectLanguage t)))) := by
    simp only [genDiagBody]
    rw [hcond, hexp', hds]
    simp [jsSlice2]
  refine ⟨objSet (objSet (Json.obj fs) "explanation"
      (defaultExplanation (detectLanguage t) (.arr (ds.take 2))
        (.arr (ds.drop 1))))
      "language" (.str (langCode (detectLanguage t))), ?_, ?_, rfl, rfl, rfl, rfl, rfl⟩
  · simp only [generateDiagnosisM]
    rw [hb]
  · show jget (objSet (objSet (Json.obj fs) "explanation" _) "language" _)
      "explanation" = _
    simp only [objSet, jget]
    rw [getKV_setKV_ne
          (setKV fs "explanation"
            (defaultExplanation (detectLanguage t) (.arr (ds.take 2))
              (.arr (ds.drop 1))))
          (show ("language" : String) ≠ "explanation" by decide),
        getKV_setKV_self]

/-- C3 (witness): the synthesized-explanation theorem at the concrete run
`c3transcript`/`c3obj`. -/
theorem c3_witness :
    truthy (jget c3obj "diagnosis") = true ∧
    jget c3obj "diseases" = some (.arr c3ds) ∧
    truthy (jget c3obj "exams") = true ∧
    truthy (jget c3obj "medications") = true ∧
    jget c3obj "explanation" = none ∧
    (∃ r, generateDiagnosisM c3transcript (.ok (.parsed c3obj)) = .ok r ∧
      jget r "explanation" =
        some (defaultExplanation (detectLanguage c3transcript)
          (.arr (c3ds.take 2)) (.arr (c3ds.drop 1))) ∧
      jget (defaultExplanation (detectLanguage c3transcript)
          (.arr (c3ds.take 2)) (.arr (c3ds.drop 1))) "confidence" =
        some (.num 0.8) ∧
      jget (defaultExplanation (detectLanguage c3transcript)
          (.arr (c3ds.take 2)) (.arr (c3ds.drop 1))) "keySymptoms" =
        some (.arr (c3ds.take 2)) ∧
      jget (defaultExplanation (detectLanguage c3transcript)
          (.arr (c3ds.take 2)) (.arr (c3ds.drop 1))) "differentialDiagnoses" =
        some (.arr (c3ds.drop 1)) ∧
      jget (defaultExplanation (detectLanguage c3transcript)
          (.arr (c3ds.take 2)) (.arr (c3ds.drop 1))) "reasoning" =
        some (.str (reasoningText (detectLanguage c3transcript))) ∧
      jget (defaultExplanation (detectLanguage c3transcript)
          (.arr (c3ds.take 2)) (.arr (c3ds.drop 1))) "recommendationBasis" =
        some (.str (recommendationText (detectLanguage c3transcript)))) :=
  ⟨rfl, rfl, rfl, rfl, rfl,
   c3_synthesized_explanation c3transcript c3obj c3ds rfl rfl rfl rfl rfl⟩

/-- C4 (counterexample): on the spec's scenario input the synthesized
`differentialDiagnoses` is not `[]`. -/
theorem c4_counterexample :
    ¬ ∃ r e, generateDiagnosisM c4transcript (.ok (.parsed c4obj)) = .ok r ∧
        jget r "explanation" = some e ∧
        jget e "differentialDiagnoses" = some (.arr []) := by
  rintro ⟨r, e, h1, h2, h3⟩
  have hr : generateDiagnosisM c4transcript (.ok (.parsed c4obj)) =
      .ok c4result := rfl
  rw [hr] at h1
  injection h1 with h1
  subst h1
  have h2' : jget c4result "explanation" = some c4expl := rfl
  rw [h2'] at h2
  injection h2 with h2
  subst h2
  have h3' : jget c4expl "differentialDiagnoses" =
      some (.arr [jstr "Sinusite"]) := rfl
  rw [h3'] at h3
  injection h3 with h3
  injection h3 with h3
  exact List.noConfusion h3

/-- C4 (amended): on the scenario transcript and stub, `generateDiagnosis`
returns language `pt`, confidence 0.80 and
`keySymptoms = ["Gripe", "Sinusite"]` as the spec example says, but
`differentialDiagnoses = ["Sinusite"]` — `diseases.slice(1)` — not `[]`. -/
theorem c4_amended :
    generateDiagnosisM c4transcript (.ok (.parsed c4obj)) = .ok c4result ∧
    jget c4result "language" = some (jstr "pt") ∧
    jget c4result "explanation" = some c4expl ∧
    jget c4expl "confidence" = some (.num 0.8) ∧
    jget c4expl "keySymptoms" = some (.arr [jstr "Gripe", jstr "Sinusite"]) ∧
    jget c4expl "differentialDiagnoses" = some (.arr [jstr "Sinusite"]) :=
  ⟨rfl, rfl, rfl, rfl, rfl, rfl⟩

/-- C5: once `generateDiagnosis` succeeds with result `r`, the diagnose
endpoint answers 200 with `{...r, success, message}` regardless of whether
the consultation save succeeds or fails; a failing save only means no
document is written. -/
theorem c5_save_failure_does_not_affect_response (t : List Char)
    (call : Except JsError ProviderContent) (r : Json) (freshId : List Char)
    (now : Int) (saveFails : Bool)
    (hlen : 10 ≤ (jsTrim t).length)
    (hok : generateDiagnosisM t call = .ok r) :
    diagnose (some t) call freshId now saveFails =
      ⟨200, diagnoseOkBody r,
        if saveFails then [] else [buildConsultationDoc freshId t r now]⟩ := by
  simp only [diagnose]
  rw [if_neg (show ¬((jsTrim t).length = 0) by omega),
      if_neg (show ¬((jsTrim t).length < 10) by omega), hok]

/-- C5 (witness): the response-independence theorem at the concrete C5 run
with a failing save. -/
theorem c5_witness :
    10 ≤ (jsTrim c5transcript).length ∧
    generateDiagnosisM c5transcript (.ok (.parsed c5obj)) = .ok c5result ∧
    diagnose (some c5transcript) (.ok (.parsed c5obj)) ("id-c5".toList) 0 true =
      ⟨200, diagnoseOkBody c5result, []⟩ :=
  ⟨by decide, rfl,
   c5_save_failure_does_not_affect_response c5transcript (.ok (.parsed c5obj))
     c5result ("id-c5".toList) 0 true (by decide) rfl⟩

/-- C6 (counterexample): the consultation document written after the
concrete successful C6 diagnosis has no `explanation` field at all, and its
`confidence` is the hardcoded 0.95 while the diagnosis result's synthesized
explanation has confidence 0.80. -/
theorem c6_counterexample :
    (diagnose (some c6transcript) (.ok (.parsed c6obj)) c6id 0 false).saved =
      [c6doc] ∧
    getKV c6doc.fields "explanation" = none ∧
    getKV c6doc.fields "confidence" = some (.jsv (.num 0.95)) ∧
    jget c6result "explanation" = some c6expl ∧
    jget c6expl "confidence" = some (.num 0.8) ∧
    Json.num 0.95 ≠ Json.num 0.8 := by
  refine ⟨rfl, rfl, rfl, rfl, rfl, ?_⟩
  intro hq
  injection hq with hq
  norm_num at hq

/-- C6 (amended): every consultation record written after a successful
diagnosis is keyed by the freshly generated id and carries exactly `id`,
`transcription`, `diagnosis`, `diseases`, `exams`, `medications` (from the
result), the server-assigned `timestamp`, `createdAt`, `duration = null`,
the hardcoded `confidence = 0.95` and `status = "completed"`; it contains no
explanation payload, and its confidence is not taken from the diagnosis
result. -/
theorem c6_saved_record_fields (t : List Char)
    (call : Except JsError ProviderContent) (r : Json) (freshId : List Char)
    (now : Int) (hlen : 10 ≤ (jsTrim t).length)
    (hok : generateDiagnosisM t call = .ok r) :
    (diagnose (some t) call freshId now false).saved =
      [buildConsultationDoc freshId t r now] ∧
    (buildConsultationDoc freshId t r now).key = freshId ∧
    getKV (buildConsultationDoc freshId t r now).fields "id" =
      some (.jsv (.str freshId)) ∧
    getKV (buildConsultationDoc freshId t r now).fields "transcription" =
      some (.jsv (.str t)) ∧
    getKV (buildConsultationDoc freshId t r now).fields "diagnosis" =
      some (.jsv ((jget r "diagnosis").getD .nullJ)) ∧
    getKV (buildConsultationDoc freshId t r now).fields "diseases" =
      some (.jsv (orEmptyArr (jget r "diseases"))) ∧
    getKV (buildConsultationDoc freshId t r now).fields "exams" =
      some (.jsv (orEmptyArr (jget r "exams"))) ∧
    getKV (buildConsultationDoc freshId t r now).fields "medications" =
      some (.jsv (orEmptyArr (jget r "medications"))) ∧
    getKV (buildConsultationDoc freshId t r now).fields "timestamp" =
      some .server ∧
    getKV (buildConsultationDoc freshId t r now).fields "createdAt" =
      some (.dateV now) ∧
    getKV (buildConsultationDoc freshId t r now).fields "duration" =
      some .nullV ∧
    getKV (buildConsultationDoc freshId t r now).fields "confidence" =
      some (.jsv (.num 0.95)) ∧
    getKV (buildConsultationDoc freshId t r now).fields "status" =
      some (.jsv (jstr "completed")) ∧
    getKV (buildConsultationDoc freshId t r now).fields "explanation" = none := by
  refine ⟨?_, rfl, rfl, rfl, rfl, rfl, rfl, rfl, rfl, rfl, rfl, rfl, rfl, rfl⟩
  simp only [diagnose]
  rw [if_neg (show ¬((jsTrim t).length = 0) by omega),
      if_neg (show ¬((jsTrim t).length < 10) by omega), hok]
  rfl

/-- C6 (witness): the amended record-shape theorem at the concrete C6 run. -/
theorem c6_witness :
    10 ≤ (jsTrim c6transcript).length ∧
    generateDiagnosisM c6transcript (.ok (.parsed c6obj)) = .ok c6result ∧
    (diagnose (some c6transcript) (.ok (.parsed c6obj)) c6id 0 false).saved =
      [c6doc] ∧
    getKV c6doc.fields "status" = some (.jsv (jstr "completed")) ∧
    getKV c6doc.fields "timestamp" = some DocV.server ∧
    getKV c6doc.fields "explanation" = none := by
  have h := c6_saved_record_fields c6transcript (.ok (.parsed c6obj)) c6result
    c6id 0 (by decide) rfl
  exact ⟨by decide, rfl, h.1, rfl, rfl, rfl⟩

/-- C7 (counterexample): `generateDiagnosis` performs no transcript
re-validation: on the 3-character transcript `"dor"` it invokes the provider
and succeeds instead of rejecting the input as a ClientError. -/
theorem c7_counterexample :
    (jsTrim c7transcript).length < 10 ∧
    generateDiagnosisM c7transcript c7call = .ok c7result :=
  ⟨by decide, rfl⟩

/-- C7 (amended): the empty/too-short transcript validation is enforced by
`MedicalController.diagnose` before `generateDiagnosis` is invoked: for any
transcript of fewer than 10 trimmed characters the endpoint answers 400 with
the corresponding client-error body, writes nothing, and the response is
independent of the provider call. -/
theorem c7_controller_validates (t : List Char)
    (call : Except JsError ProviderContent) (freshId : List Char) (now : Int)
    (saveFails : Bool) (h : (jsTrim t).length < 10) :
    diagnose (some t) call freshId now saveFails =
      (if (jsTrim t).length = 0 then ⟨400, diagnoseRequiredBody, []⟩
       else ⟨400, diagnoseShortBody, []⟩) := by
  simp only [diagnose]
  by_cases h0 : (jsTrim t).length = 0
  · rw [if_pos h0, if_pos h0]
  · rw [if_neg h0, if_neg h0, if_pos (show (jsTrim t).length < 10 from h)]

/-- C7 (witness): the controller-validation theorem at the concrete
3-character transcript. -/
theorem c7_witness :
    (jsTrim c7transcript).length < 10 ∧
    diagnose (some c7transcript) c7call ("id-c7".toList) 0 false =
      ⟨400, diagnoseShortBody, []⟩ :=
  ⟨by decide,
   c7_controller_validates c7transcript c7call ("id-c7".toList) 0 false (by decide)⟩

/-- C8 (counterexample): when the provider returns whitespace-only content,
`chatWithContext` fails with the generic chat failure message, not with the
empty-response one. -/
theorem c8_counterexample :
    chatWithContext c8message none (.ok (some "   ".toList)) =
      .error msgChatFailure ∧
    msgChatFailure ≠ msgEmptyResp :=
  ⟨rfl, by decide⟩

/-- C8 (amended): when the provider returns no content, or content that is
empty after trimming, `chatWithContext` fails with the generic chat-failure
kind: the empty-response error raised inside the try block is caught by the
function's own catch-all and reclassified, so the caller never observes the
`EmptyResponse` kind. -/
theorem c8_empty_reclassified :
    (∀ (m : List Char) (L : Option Lang),
        chatWithContext m L (.ok none) = .error msgChatFailure) ∧
    (∀ (m s : List Char) (L : Option Lang), (jsTrim s).isEmpty = true →
        chatWithContext m L (.ok (some s)) = .error msgChatFailure) := by
  constructor
  · intro m L
    rfl
  · intro m s L h
    simp only [chatWithContext]
    rw [h]
    rfl

/-- C8 (witness): the reclassification theorem at a null-content call and at
a whitespace-content call. -/
theorem c8_witness :
    chatWithContext c8message none (.ok none) = .error msgChatFailure ∧
    chatWithContext c8message none (.ok (some "  ".toList)) =
      .error msgChatFailure :=
  ⟨c8_empty_reclassified.1 c8message none,
   c8_empty_reclassified.2 c8message ("  ".toList) none (by decide)⟩

/-- C9 (counterexample): a concrete document-store failure during `getStats`
is not surfaced: the call succeeds with the zero default and the stats
endpoint reports success with zeroed stats. -/
theorem c9_counterexample :
    getStats (.error ("Firestore indisponível".toList)) = .ok ⟨0, 0, 0⟩ ∧
    getConsultationStatsEndpoint (.error ("Firestore indisponível".toList)) =
      (200, statsBody ⟨0, 0, 0⟩) :=
  ⟨rfl, rfl⟩

/-- C9 (amended): every document-store failure during `getStats` is
swallowed by its catch block and replaced by the `{total: 0, today: 0,
thisWeek: 0}` default, so the stats endpoint reports success with zeroed
stats instead of surfacing a PersistenceError. -/
theorem c9_stats_swallowed :
    ∀ e : List Char, getStats (.error e) = .ok ⟨0, 0, 0⟩ ∧
      getConsultationStatsEndpoint (.error e) = (200, statsBody ⟨0, 0, 0⟩) :=
  fun _ => ⟨rfl, rfl⟩

/-- C10: `transcribeAudio` releases its temporary file on every exit path —
success, provider error or provider timeout (an error) — leaving the live
temp-file set unchanged, and any sequence of (possibly failing) calls leaks
no temporary resource. -/
theorem c10_temp_file_released :
    (∀ (tempFiles : List (List Char)) (filename : List Char)
        (call : Except JsError (Option (List Char))),
        (transcribeAudio tempFiles filename call).2 = tempFiles) ∧
    (∀ (filename : List Char)
        (calls : List (Except JsError (Option (List Char)))),
        transcribeMany filename calls = []) := by
  have h1 : ∀ (tempFiles : List (List Char)) (filename : List Char)
      (call : Except JsError (Option (List Char))),
      (transcribeAudio tempFiles filename call).2 = tempFiles := by
    intro tf fn call
    cases call with
    | error e => simp [transcribeAudio, List.erase_cons_head]
    | ok t => simp [transcribeAudio, List.erase_cons_head]
  refine ⟨h1, ?_⟩
  intro fn calls
  unfold transcribeMany
  have hgen : ∀ st : List (List Char),
      calls.foldl (fun st c => (transcribeAudio st fn c).2) st = st := by
    induction calls with
    | nil => intro st; rfl
    | cons c cs ih =>
      intro st
      rw [List.foldl_cons]
      show cs.foldl (fun st c => (transcribeAudio st fn c).2)
        ((transcribeAudio st fn c).2) = st
      rw [h1 st fn c]
      exact ih st
  exact hgen []
